import Mathlib

/-!
# Health & Fitness Dashboard — verification of the record/statistics core

Shallow embedding of the record-management and statistics engine of the
browser health dashboard (React sources `src/App.js`,
`src/components/HealthRecordForm.js`, `src/components/SummaryDashboard.js`,
`src/components/HealthRecordsList.js` and the unnamed variant components).

Modelling conventions:
* JS numbers that the core manipulates are embedded as `ℚ` (all arithmetic
  the code performs on them — sums, division by a list length, `Math.round`,
  `Math.min` — is exact rational arithmetic in the relevant range).
* A calendar date `"YYYY-MM-DD"` is embedded as a `CalDate` triple; the
  ordering that `new Date(dateString)` induces on such strings is the
  ordering of the civil epoch-day number `toEpochDay`.
* `Date.now()` and `new Date()` (clock reads) are passed as explicit
  parameters (`now`, `today`): each call site of the embedded functions
  supplies the value the ambient clock would have produced.
* `Array.prototype.sort` (stable since ES2019) is embedded as
  `List.insertionSort`, the stable sort of the Lean library: a stable sort
  with respect to a total preorder has a unique output, so any stable sort
  is a faithful embedding of the engine's stable sort.
-/

/-- A calendar date, the embedding of a `"YYYY-MM-DD"` date string. -/
structure CalDate where
  year : Int
  month : Int
  day : Int
deriving DecidableEq, Repr

/-- Civil-calendar date → days since the Unix epoch (1970-01-01).
This is the number `new Date("YYYY-MM-DD").getTime() / 86400000` for a
valid ISO date string: the key under which the JS code compares and
subtracts dates. -/
def toEpochDay (d : CalDate) : Int :=
  let y : Int := if d.month ≤ 2 then d.year - 1 else d.year
  let era : Int := (if 0 ≤ y then y else y - 399) / 400
  let yoe : Int := y - era * 400
  let doy : Int := (153 * (if 2 < d.month then d.month - 3 else d.month + 9) + 2) / 5
                   + d.day - 1
  let doe : Int := yoe * 365 + yoe / 4 - yoe / 100 + doy
  era * 146097 + doe - 719468

/-- A stored health record: `{ id, date, steps, workoutDuration, heartRate,
createdAt?, updatedAt? }` as kept in the `records` array of `App.js`.
Timestamps are millisecond clock values (`Date.now()` / `toISOString()`
readings), embedded as the underlying instant. -/
structure HealthRecord where
  id : Int
  date : CalDate
  steps : ℚ
  workoutDuration : ℚ
  heartRate : ℚ
  createdAt : Option Int := none
  updatedAt : Option Int := none
deriving DecidableEq, Repr

/-- The comparator `(a, b) => new Date(b.date) - new Date(a.date)` used by
`App.js` (second variant, `handleAddRecord`/`handleEditRecord`) and by
`HealthRecordsList` (first variant, `sortedRecords`): `a` may stay before
`b` exactly when `b`'s date key is ≤ `a`'s (descending by date). -/
def dateDescR (a b : HealthRecord) : Prop :=
  toEpochDay b.date ≤ toEpochDay a.date

instance : DecidableRel dateDescR := fun _ _ => Int.decLe _ _

instance : IsTotal HealthRecord dateDescR :=
  ⟨fun _ _ => le_total _ _⟩

instance : IsTrans HealthRecord dateDescR :=
  ⟨fun _ _ _ h1 h2 => le_trans h2 h1⟩

/-- `[...records].sort((a, b) => new Date(b.date) - new Date(a.date))` —
stable sort, newest date first. -/
def sortByDateDesc (records : List HealthRecord) : List HealthRecord :=
  List.insertionSort dateDescR records

/-- The payload the form submits for a record: the four user-editable
fields (`HealthRecordForm.handleSubmit`: `date`, `steps`,
`workoutDuration`, `heartRate`, all coerced through `Number(...)`). -/
structure RecordData where
  date : CalDate
  steps : ℚ
  workoutDuration : ℚ
  heartRate : ℚ
deriving DecidableEq, Repr

/-- `App.js` (second variant) `handleAddRecord`: builds
`{ id: Date.now(), ...recordData, createdAt: new Date().toISOString() }`,
appends it and re-sorts by date descending. `now` is the clock value both
reads observe. -/
def handleAddRecord (records : List HealthRecord) (recordData : RecordData)
    (now : Int) : List HealthRecord :=
  let newRecord : HealthRecord :=
    { id := now
      date := recordData.date
      steps := recordData.steps
      workoutDuration := recordData.workoutDuration
      heartRate := recordData.heartRate
      createdAt := some now
      updatedAt := none }
  sortByDateDesc (records ++ [newRecord])

/-- `App.js` (second variant) `handleEditRecord`: maps over the records,
replacing the record whose `id` matches with
`{ ...record, ...updatedRecord, updatedAt: new Date().toISOString() }`
(the submitted fields override, `createdAt` survives from the old record),
then re-sorts by date descending. -/
def handleEditRecord (records : List HealthRecord) (targetId : Int)
    (updated : RecordData) (now : Int) : List HealthRecord :=
  sortByDateDesc (records.map fun record =>
    if record.id = targetId then
      { record with
        date := updated.date
        steps := updated.steps
        workoutDuration := updated.workoutDuration
        heartRate := updated.heartRate
        updatedAt := some now }
    else record)

/-- `App.js` `handleDeleteRecord` (confirmed branch):
`records.filter(record => record.id !== recordId)`. -/
def handleDeleteRecord (records : List HealthRecord) (recordId : Int) :
    List HealthRecord :=
  records.filter fun record => record.id ≠ recordId

/-- `Store.get(id)`: the lookup the components perform on the records
array (`records.find(r => r.id === id)`); `none` is the `NotFound`
outcome (`undefined`). -/
def getRecord (records : List HealthRecord) (recordId : Int) :
    Option HealthRecord :=
  records.find? fun record => record.id = recordId

/-- One user intent against the store, with the clock value the handler
observes. -/
inductive StoreOp
  | add (data : RecordData) (now : Int)
  | edit (targetId : Int) (data : RecordData) (now : Int)
  | del (recordId : Int)
deriving Repr

/-- Applying one operation to the records state (second-variant `App.js`
handlers). -/
def applyOp (records : List HealthRecord) : StoreOp → List HealthRecord
  | .add data now => handleAddRecord records data now
  | .edit targetId data now => handleEditRecord records targetId data now
  | .del recordId => handleDeleteRecord records recordId

/-- Applying a sequence of operations starting from a state. -/
def applyOps (records : List HealthRecord) : List StoreOp → List HealthRecord
  | [] => records
  | op :: ops => applyOps (applyOp records op) ops

/-! ## Record Validator — `HealthRecordForm.validateForm` -/

/-- The result of coercing a form text field through `Number(...)`:
either `NaN` (non-numeric text) or a numeric value. -/
inductive JsNum
  | nan
  | val (q : ℚ)
deriving DecidableEq, Repr

/-- `Number(s) < c` — every comparison against `NaN` is `false`. -/
def JsNum.ltc : JsNum → ℚ → Bool
  | .nan, _ => false
  | .val q, c => q < c

/-- `Number(s) > c` — every comparison against `NaN` is `false`. -/
def JsNum.gtc : JsNum → ℚ → Bool
  | .nan, _ => false
  | .val q, c => c < q

/-- A numeric text input of the form, abstracted by the only two
observations `validateForm` makes of the string: its truthiness
(`!formData.steps` — the empty string is the falsy case) and its
`Number(...)` coercion. -/
structure FieldInput where
  isEmpty : Bool
  num : JsNum
deriving DecidableEq, Repr

/-- The state of the form (`formData`). The date input's value is either
empty (`none`) or a valid calendar date (`some d`) — the value space of an
HTML date input. -/
structure FormData where
  date : Option CalDate
  steps : FieldInput
  workoutDuration : FieldInput
  heartRate : FieldInput
deriving DecidableEq, Repr

/-- The `newErrors` object `validateForm` builds: per-field optional
message. -/
structure FormErrors where
  date : Option String
  steps : Option String
  workoutDuration : Option String
  heartRate : Option String
deriving DecidableEq, Repr

/-- `HealthRecordForm.validateForm` (lines 120–155), field by field with
the exact message strings and the exact chain of `if`/`else if` checks. -/
def validateForm (formData : FormData) : FormErrors :=
  { date :=
      if formData.date.isNone then some "Date is required" else none
    steps :=
      if formData.steps.isEmpty then some "Step count is required"
      else if formData.steps.num.ltc 0 then some "Steps cannot be negative"
      else if formData.steps.num.gtc 100000 then some "Steps value seems too high"
      else none
    workoutDuration :=
      if formData.workoutDuration.isEmpty then some "Workout duration is required"
      else if formData.workoutDuration.num.ltc 0 then some "Duration cannot be negative"
      else if formData.workoutDuration.num.gtc 1440 then some "Duration cannot exceed 24 hours"
      else none
    heartRate :=
      if formData.heartRate.isEmpty then some "Heart rate is required"
      else if (formData.heartRate.num.ltc 30 || formData.heartRate.num.gtc 220) then
        some "Heart rate should be between 30-220 bpm"
      else none }

/-- `Object.keys(newErrors).length === 0`: validation succeeds when no
field error was recorded. -/
def validateSuccess (formData : FormData) : Bool :=
  let e := validateForm formData
  e.date.isNone && e.steps.isNone && e.workoutDuration.isNone && e.heartRate.isNone

/-- What `validateForm` actually enforces on a numeric field: the text is
non-empty, `Number(text) < lo` is not true and `Number(text) > hi` is not
true (so a `NaN` passes both range checks). -/
def codeFieldOk (f : FieldInput) (lo hi : ℚ) : Prop :=
  f.isEmpty = false ∧ f.num.ltc lo = false ∧ f.num.gtc hi = false

instance (f : FieldInput) (lo hi : ℚ) : Decidable (codeFieldOk f lo hi) := by
  unfold codeFieldOk; infer_instance

/-- A numeric field satisfying the claimed constraint: present, numeric,
an integer, and within `[lo, hi]`. Stated from the claim's words, to be
compared with what `validateForm` actually checks. -/
def claimedIntField (f : FieldInput) (lo hi : ℚ) : Bool :=
  !f.isEmpty &&
    match f.num with
    | .nan => false
    | .val q => q.den == 1 && decide (lo ≤ q) && decide (q ≤ hi)

/-- The claimed validity of a whole draft: `date` present, a valid
calendar date, not after the supplied current date; `steps` ∈ [0, 100000];
`workoutDuration` ∈ [0, 1440]; `heartRate` ∈ [30, 220]; all integers.
Stated from the claim's words, to be compared with `validateSuccess`. -/
def claimedValid (formData : FormData) (today : CalDate) : Bool :=
  (match formData.date with
   | none => false
   | some d => toEpochDay d ≤ toEpochDay today) &&
  claimedIntField formData.steps 0 100000 &&
  claimedIntField formData.workoutDuration 0 1440 &&
  claimedIntField formData.heartRate 30 220

/-! ## Statistics Aggregator -/

/-- `Math.round`: round half toward +∞ (JS semantics). -/
def jsRound (q : ℚ) : Int := ⌊q + 1 / 2⌋

/-- The statistics object of the first dashboard variant
(`DashboardSummary.calculateStats`). -/
structure StatsV1 where
  totalSteps : ℚ
  totalWorkoutDuration : ℚ
  averageHeartRate : Int
  dailyAverageSteps : Int
  recordCount : Nat
deriving DecidableEq, Repr

/-- `DashboardSummary.calculateStats` (unnamed variant, lines 190–215):
zeros on the empty list, otherwise sums and rounded means. -/
def calculateStats (records : List HealthRecord) : StatsV1 :=
  if records.length = 0 then
    { totalSteps := 0
      totalWorkoutDuration := 0
      averageHeartRate := 0
      dailyAverageSteps := 0
      recordCount := 0 }
  else
    let totalSteps := (records.map (·.steps)).sum
    let totalWorkoutDuration := (records.map (·.workoutDuration)).sum
    let averageHeartRate :=
      jsRound ((records.map (·.heartRate)).sum / records.length)
    let dailyAverageSteps := jsRound (totalSteps / records.length)
    { totalSteps := totalSteps
      totalWorkoutDuration := totalWorkoutDuration
      averageHeartRate := averageHeartRate
      dailyAverageSteps := dailyAverageSteps
      recordCount := records.length }

/-- One bucket of the weekly chart built by
`SummaryDashboard.getWeeklyData`: day-of-week label, the day (as its epoch
day — the `dateStr` of the code), that day's steps, and the capped
percentage of the 10,000-step goal. -/
structure WeekEntry where
  day : String
  date : Int
  steps : ℚ
  percentage : ℚ
deriving DecidableEq, Repr

/-- The `days` array of `getWeeklyData`, indexed by `date.getDay()`
(0 = Sunday). -/
def dayNames : List String :=
  ["Sun", "Mon", "Tue", "Wed", "Thu", "Fri", "Sat"]

/-- `date.getDay()` for the date whose epoch day is `e`: 1970-01-01 was a
Thursday (day 4). -/
def dayOfWeek (e : Int) : Nat := ((e + 4) % 7).toNat

/-- `SummaryDashboard.getWeeklyData` (lines 238–261). The code reads
`const today = new Date()` — the ambient clock; here that reading is the
explicit `today` parameter. For `i = 6 .. 0` it takes the day `today - i`,
looks for a record with that date (`records.find(r => r.date === dateStr)`,
embedded as equality of epoch days), and reports its steps (0 if none)
with the goal percentage capped at 100. -/
def getWeeklyData (records : List HealthRecord) (today : CalDate) :
    List WeekEntry :=
  let todayE := toEpochDay today
  (List.range 7).map fun k =>
    -- k = 0 .. 6 corresponds to the loop counter i = 6 .. 0
    let e := todayE - (6 - (k : Int))
    let steps : ℚ :=
      match records.find? (fun r => toEpochDay r.date = e) with
      | some r => r.steps
      | none => 0
    { day := dayNames.getD (dayOfWeek e) ""
      date := e
      steps := steps
      percentage := min (steps / 10000 * 100) 100 }

/-- The statistics object of the second dashboard variant
(`SummaryDashboard.stats`). -/
structure StatsV2 where
  totalSteps : ℚ
  totalWorkout : ℚ
  avgHeartRate : Int
  recordCount : Nat
  avgDailySteps : Int
  weeklyData : List WeekEntry
deriving DecidableEq, Repr

/-- `SummaryDashboard.stats` (lines 37–68): early return of zeros and an
empty `weeklyData` on an empty records array, otherwise totals, rounded
means and the weekly chart data. `today` is the clock value
`getWeeklyData` reads internally. -/
def summaryStats (records : List HealthRecord) (today : CalDate) : StatsV2 :=
  if records.length = 0 then
    { totalSteps := 0
      totalWorkout := 0
      avgHeartRate := 0
      recordCount := 0
      avgDailySteps := 0
      weeklyData := [] }
  else
    let totalSteps := (records.map (·.steps)).sum
    let totalWorkout := (records.map (·.workoutDuration)).sum
    let avgHeartRate :=
      jsRound ((records.map (·.heartRate)).sum / records.length)
    let avgDailySteps := jsRound (totalSteps / records.length)
    { totalSteps := totalSteps
      totalWorkout := totalWorkout
      avgHeartRate := avgHeartRate
      recordCount := records.length
      avgDailySteps := avgDailySteps
      weeklyData := getWeeklyData records today }

/-! ## Heart-rate classification -/

/-- The three zones the spec names for heart-rate classification. -/
inductive HRZone
  | low
  | normal
  | elevated
deriving DecidableEq, Repr

/-- `HealthRecordsList.getHeartRateCategory` (unnamed variant, lines
60–64), the list-row badge: label and CSS class. -/
def getHeartRateCategory (heartRate : ℚ) : String × String :=
  if heartRate < 60 then ("Low", "hr-low")
  else if heartRate ≤ 100 then ("Normal", "hr-normal")
  else ("High", "hr-high")

/-- `SummaryDashboard.getHeartRateStatus` (lines 226–231), the dashboard
status text of the second variant. -/
def getHeartRateStatus (heartRate : ℚ) : String :=
  if heartRate = 0 then "No data"
  else if heartRate < 60 then "Resting"
  else if heartRate < 100 then "Normal range"
  else "Elevated"

/-- `DashboardSummary.getHeartRateStatus` (unnamed variant, lines
250–255), the dashboard status of the first variant: text and CSS class. -/
def getHeartRateStatusV1 (heartRate : ℚ) : String × String :=
  if heartRate = 0 then ("N/A", "status-neutral")
  else if heartRate < 60 then ("Low", "status-warning")
  else if heartRate ≤ 100 then ("Healthy", "status-good")
  else ("Elevated", "status-alert")

/-- The zone a list-row badge label denotes. -/
def zoneOfCategory (c : String × String) : HRZone :=
  if c.1 = "Low" then .low else if c.1 = "Normal" then .normal else .elevated

/-- The zone a dashboard status text denotes (`"No data"` is mapped to
`.low` so that any answer is total; the claim's counterexample does not
depend on this choice). -/
def zoneOfStatus (s : String) : HRZone :=
  if s = "Resting" then .low
  else if s = "Normal range" then .normal
  else if s = "Elevated" then .elevated
  else .low

/-! ## Spec-side model of the store's delete contract -/

/-- Following the spec's words (§4.2): `delete(id) -> void` — "fails with
`NotFound` if absent; otherwise removes the record unconditionally".
A spec-side definition, to be compared with `handleDeleteRecord`. -/
def deleteSpecModel (records : List HealthRecord) (recordId : Int) :
    Except Unit (List HealthRecord) :=
  if records.any (fun record => record.id = recordId) then
    .ok (records.filter fun record => record.id ≠ recordId)
  else
    .error ()

/-! ## Concrete sample inputs -/

/-- The record `{date:"2026-01-10", steps:8500, workoutDuration:45,
heartRate:72}` of the claimed test vector (sample record 1 of the first
`App.js` variant). -/
def recJan10 : HealthRecord :=
  { id := 1, date := ⟨2026, 1, 10⟩, steps := 8500, workoutDuration := 45
    heartRate := 72 }

/-- The record `{date:"2026-01-11", steps:10200, workoutDuration:60,
heartRate:75}` of the claimed test vector. -/
def recJan11 : HealthRecord :=
  { id := 2, date := ⟨2026, 1, 11⟩, steps := 10200, workoutDuration := 60
    heartRate := 75 }

/-- The record `{date:"2026-01-12", steps:7800, workoutDuration:30,
heartRate:70}` of the claimed test vector. -/
def recJan12 : HealthRecord :=
  { id := 3, date := ⟨2026, 1, 12⟩, steps := 7800, workoutDuration := 30
    heartRate := 70 }

/-- A form payload with a given date and fixed plausible metrics. -/
def plainData (d : CalDate) : RecordData :=
  { date := d, steps := 100, workoutDuration := 10, heartRate := 70 }

/-- An operation sequence that exercises the tie-breaking of the listing:
three records end up sharing the date 2026-01-10 after an edit. -/
def tieOps : List StoreOp :=
  [ .add (plainData ⟨2026, 1, 10⟩) 1
  , .add (plainData ⟨2026, 1, 12⟩) 2
  , .add (plainData ⟨2026, 1, 10⟩) 3
  , .edit 2 (plainData ⟨2026, 1, 10⟩) 4 ]

/-- A form draft whose date input holds 2026-01-12 and whose `steps` text
is non-empty but not numeric (`Number(text)` is `NaN`, e.g. the text
`"abc"`); the other fields are in range. -/
def draftNanSteps : FormData :=
  { date := some ⟨2026, 1, 12⟩
    steps := ⟨false, .nan⟩
    workoutDuration := ⟨false, .val 30⟩
    heartRate := ⟨false, .val 72⟩ }

/-! # Theorems

## Shared lemmas -/

theorem threeChain_none_iff (f : FieldInput) (lo hi : ℚ) (m1 m2 m3 : String) :
    (if f.isEmpty then some m1
     else if f.num.ltc lo then some m2
     else if f.num.gtc hi then some m3
     else none) = none ↔ codeFieldOk f lo hi := by
  unfold codeFieldOk
  split_ifs with h1 h2 h3 <;> simp_all

theorem heartChain_none_iff (f : FieldInput) (m1 m2 : String) :
    (if f.isEmpty then some m1
     else if (f.num.ltc 30 || f.num.gtc 220) then some m2
     else none) = none ↔ codeFieldOk f 30 220 := by
  unfold codeFieldOk
  rcases f with ⟨e, n⟩
  cases e <;>
    cases hl : JsNum.ltc n 30 <;> cases hg : JsNum.gtc n 220 <;> simp_all

theorem sortByDateDesc_sorted (l : List HealthRecord) :
    List.Sorted dateDescR (sortByDateDesc l) :=
  List.sorted_insertionSort dateDescR l

theorem applyOps_sorted_inv (ops : List StoreOp) (recs : List HealthRecord)
    (h : List.Sorted dateDescR recs) :
    List.Sorted dateDescR (applyOps recs ops) := by
  induction ops generalizing recs with
  | nil => exact h
  | cons op ops ih =>
    refine ih _ ?_
    cases op with
    | add data now => exact sortByDateDesc_sorted _
    | edit targetId data now => exact sortByDateDesc_sorted _
    | del recordId => exact List.Pairwise.filter _ h

theorem find?_eq_some_of_unique {α : Type} (p : α → Bool) (x : α)
    (l : List α) (hx : x ∈ l) (hpx : p x = true)
    (huniq : ∀ b ∈ l, p b = true → b = x) :
    l.find? p = some x := by
  induction l with
  | nil => cases hx
  | cons a t ih =>
    by_cases ha : p a = true
    · rw [List.find?_cons_of_pos _ ha]
      exact congrArg some (huniq a (List.mem_cons_self a t) ha)
    · rw [List.find?_cons_of_neg _ (by simpa using ha)]
      rcases List.mem_cons.mp hx with rfl | hxt
      · exact absurd hpx ha
      · exact ih hxt fun b hb hpb => huniq b (List.mem_cons_of_mem a hb) hpb

/-! ## Claim C1 — what `validateForm` accepts -/

/-- Claim C1, counterexample: a draft whose `steps` text coerces to the
non-numeric `NaN` and whose date (2026-01-12) lies strictly after the
current date (2026-01-01) passes `validateForm`, although the claimed
field constraints (numeric steps; date not after the supplied current
date) are violated — so `validate` does NOT succeed "if and only if every field
satisfies its constraint". -/
theorem c1_counterexample :
    validateSuccess draftNanSteps = true ∧
      claimedValid draftNanSteps ⟨2026, 1, 1⟩ = false := by
  decide

/-- Claim C1 (amended): `validateForm` succeeds iff the date input is
non-empty and each numeric field is non-empty with its `Number(...)` value
failing both range comparisons (`steps` not `< 0` and not `> 100000`,
`workoutDuration` not `< 0` and not `> 1440`, `heartRate` not `< 30` and
not `> 220`); a `NaN` passes the range comparisons, integrality is not
checked, and the date is neither parsed nor compared with the current
date. Each field's error is reported exactly when that field's own check
fails. -/
theorem c1_validate_iff_code_checks (fd : FormData) :
    (validateSuccess fd = true ↔
      (fd.date.isSome = true ∧ codeFieldOk fd.steps 0 100000 ∧
       codeFieldOk fd.workoutDuration 0 1440 ∧
       codeFieldOk fd.heartRate 30 220)) ∧
    ((validateForm fd).date = none ↔ fd.date.isSome = true) ∧
    ((validateForm fd).steps = none ↔ codeFieldOk fd.steps 0 100000) ∧
    ((validateForm fd).workoutDuration = none ↔
      codeFieldOk fd.workoutDuration 0 1440) ∧
    ((validateForm fd).heartRate = none ↔ codeFieldOk fd.heartRate 30 220) := by
  have hd : (validateForm fd).date = none ↔ fd.date.isSome = true := by
    cases h : fd.date <;> simp [validateForm, h]
  have hs : (validateForm fd).steps = none ↔ codeFieldOk fd.steps 0 100000 := by
    simpa [validateForm] using
      threeChain_none_iff fd.steps 0 100000 "Step count is required"
        "Steps cannot be negative" "Steps value seems too high"
  have hw : (validateForm fd).workoutDuration = none ↔
      codeFieldOk fd.workoutDuration 0 1440 := by
    simpa [validateForm] using
      threeChain_none_iff fd.workoutDuration 0 1440
        "Workout duration is required" "Duration cannot be negative"
        "Duration cannot exceed 24 hours"
  have hh : (validateForm fd).heartRate = none ↔
      codeFieldOk fd.heartRate 30 220 := by
    simpa [validateForm] using
      heartChain_none_iff fd.heartRate "Heart rate is required"
        "Heart rate should be between 30-220 bpm"
  refine ⟨?_, hd, hs, hw, hh⟩
  simp only [validateSuccess, Bool.and_eq_true, Option.isNone_iff_eq_none]
  rw [hd, hs, hw, hh]
  tauto

/-! ## Claim C2 — ordering of the record listing -/

/-- Claim C2, counterexample: after `tieOps` (two creates on 2026-01-10,
one on 2026-01-12, then an edit moving the latter to 2026-01-10) all three
records share the same date, and the listing order of their ids is
`[2, 1, 3]` — neither the insertion order `[1, 2, 3]` nor id-descending
`[3, 2, 1]`, so neither of the claimed fixed tie-breaking policies is the
one the store implements. -/
theorem c2_tie_policy_counterexample :
    ((applyOps [] tieOps).map (·.id) = [2, 1, 3]) ∧
    ((applyOps [] tieOps).map (fun r => toEpochDay r.date) =
      [20463, 20463, 20463]) ∧
    ((applyOps [] tieOps).map (·.id) ≠ [1, 2, 3]) ∧
    ((applyOps [] tieOps).map (·.id) ≠ [3, 2, 1]) := by
  decide

/-- Claim C2 (amended): after every sequence of create, update and delete
operations starting from the empty store, the listing is ordered by date
descending; the order among records of equal date is deterministic (it is
a function of the operation sequence, via the stable re-sort each mutation
performs), but it follows neither the insertion-order policy nor the
id-descending policy. -/
theorem c2_listing_sorted_by_date_desc (ops : List StoreOp) :
    List.Sorted dateDescR (applyOps [] ops) :=
  applyOps_sorted_inv ops [] List.sorted_nil

/-! ## Claim C3 — `summarize` on the empty record list -/

/-- Claim C3, counterexample: on the empty record list the dashboard's
`stats` returns `weeklyData: []` — a weekly series of 0 buckets, not the
claimed 7 all-zero buckets. -/
theorem c3_counterexample :
    ((summaryStats [] ⟨2026, 1, 15⟩).weeklyData).length ≠ 7 := by
  decide

/-- Claim C3 (amended): on the empty record list every numeric output of
both aggregator variants is zero and the weekly series is empty (0
buckets); the computation is total (never throws) and the
division-by-length branch is never reached, so nothing divides by zero. -/
theorem c3_empty_stats :
    (∀ today : CalDate, summaryStats [] today =
      { totalSteps := 0, totalWorkout := 0, avgHeartRate := 0,
        recordCount := 0, avgDailySteps := 0, weeklyData := [] }) ∧
    calculateStats [] =
      { totalSteps := 0, totalWorkoutDuration := 0, averageHeartRate := 0,
        dailyAverageSteps := 0, recordCount := 0 } :=
  ⟨fun _ => rfl, rfl⟩

/-! ## Claim C4 — update followed by get -/

/-- Claim C4: in a store whose record ids are pairwise distinct, updating
the record with identifier `targetId` with payload `data` and then looking
that id up yields a record whose mutable fields (`date`, `steps`,
`workoutDuration`, `heartRate`) are those of `data`, whose `id` and
original `createdAt` are preserved, and whose `updatedAt` is stamped with
the update's clock value. -/
theorem c4_update_then_get (recs : List HealthRecord) (targetId : Int)
    (data : RecordData) (now : Int) (r0 : HealthRecord)
    (hnodup : (recs.map (·.id)).Nodup)
    (hget : getRecord recs targetId = some r0) :
    getRecord (handleEditRecord recs targetId data now) targetId =
      some { id := targetId, date := data.date, steps := data.steps,
             workoutDuration := data.workoutDuration,
             heartRate := data.heartRate,
             createdAt := r0.createdAt, updatedAt := some now } := by
  have hmem : r0 ∈ recs := List.mem_of_find?_eq_some hget
  have hr0id : r0.id = targetId := by
    simpa using List.find?_some hget
  set f : HealthRecord → HealthRecord := fun record =>
    if record.id = targetId then
      { record with
        date := data.date
        steps := data.steps
        workoutDuration := data.workoutDuration
        heartRate := data.heartRate
        updatedAt := some now }
    else record with hf
  set r1 : HealthRecord :=
    { id := targetId, date := data.date, steps := data.steps,
      workoutDuration := data.workoutDuration, heartRate := data.heartRate,
      createdAt := r0.createdAt, updatedAt := some now } with hr1
  have hfr0 : f r0 = r1 := by
    obtain ⟨i, d0, s0, w0, h0, c0, u0⟩ := r0
    simp only at hr0id
    simp [hf, hr1, hr0id]
  have hmem1 : r1 ∈ recs.map f := hfr0 ▸ List.mem_map_of_mem f hmem
  have huniq : ∀ b ∈ recs.map f, (decide (b.id = targetId)) = true → b = r1 := by
    intro b hb hpb
    rcases List.mem_map.mp hb with ⟨a, ha, rfl⟩
    have hbid : (f a).id = targetId := of_decide_eq_true hpb
    by_cases haid : a.id = targetId
    · have : a = r0 :=
        List.inj_on_of_nodup_map hnodup ha hmem (by rw [haid, hr0id])
      rw [this, hfr0]
    · exfalso
      apply haid
      have hfa : f a = a := by simp [hf, haid]
      rw [hfa] at hbid
      exact hbid
  have hperm : (sortByDateDesc (recs.map f)).Perm (recs.map f) :=
    List.perm_insertionSort dateDescR (recs.map f)
  have hmem2 : r1 ∈ sortByDateDesc (recs.map f) := hperm.mem_iff.mpr hmem1
  have huniq2 : ∀ b ∈ sortByDateDesc (recs.map f),
      decide (b.id = targetId) = true → b = r1 :=
    fun b hb => huniq b (hperm.subset hb)
  have hr1p : decide (r1.id = targetId) = true := by
    rw [hr1]
    simp
  exact find?_eq_some_of_unique _ r1 _ hmem2 hr1p huniq2

/-- Claim C4, witness: a concrete update of the single stored record. -/
theorem c4_witness :
    getRecord (handleEditRecord [recJan10] 1 (plainData ⟨2026, 1, 11⟩) 99) 1 =
      some { id := 1, date := ⟨2026, 1, 11⟩, steps := 100,
             workoutDuration := 10, heartRate := 70,
             createdAt := none, updatedAt := some 99 } :=
  c4_update_then_get [recJan10] 1 (plainData ⟨2026, 1, 11⟩) 99 recJan10
    (by decide) (by decide)

/-! ## Claim C5 — delete of an absent id -/

/-- Claim C5, counterexample: on a store without the id 42 the spec's
delete contract demands a `NotFound` failure, but `handleDeleteRecord`
cannot fail — it returns the store unchanged (a silent no-op). -/
theorem c5_counterexample :
    deleteSpecModel [] 42 = .error () ∧ handleDeleteRecord [] 42 = [] :=
  ⟨rfl, rfl⟩

/-- Claim C5 (amended): after `delete(id)`, `get(id)` yields `NotFound`
(`none`); when no stored record has the id, `delete` is a silent no-op
(the store is returned unchanged and no `NotFound` is signalled — the
code has no failure channel). -/
theorem c5_delete_then_get (recs : List HealthRecord) (recordId : Int) :
    getRecord (handleDeleteRecord recs recordId) recordId = none ∧
    (getRecord recs recordId = none →
      handleDeleteRecord recs recordId = recs) := by
  constructor
  · rw [getRecord, List.find?_eq_none]
    intro r hr
    have h2 := (List.mem_filter.mp hr).2
    simpa using h2
  · intro hnone
    rw [getRecord, List.find?_eq_none] at hnone
    rw [handleDeleteRecord, List.filter_eq_self.mpr]
    intro r hr
    simpa using hnone r hr

/-- Claim C5, witness: deleting the only record makes its id unfindable,
and deleting an absent id returns the store unchanged. -/
theorem c5_witness :
    getRecord (handleDeleteRecord [recJan10] 1) 1 = none ∧
    handleDeleteRecord [recJan10] 5 = [recJan10] :=
  ⟨(c5_delete_then_get [recJan10] 1).1,
   (c5_delete_then_get [recJan10] 5).2 (by decide)⟩

/-! ## Claim C6 — uniqueness of assigned ids -/

/-- Claim C6: two `handleAddRecord` calls in the same millisecond
(`Date.now()` returns 1700000000000 for both) assign the same id to both
records, so `id` is not unique across live records — the code contradicts
its own comment ("Generate unique ID using timestamp") and the spec's
requirement that ids never collide even for two calls in the same
instant. -/
theorem c6_id_collision :
    ((handleAddRecord
        (handleAddRecord [] (plainData ⟨2026, 1, 10⟩) 1700000000000)
        (plainData ⟨2026, 1, 11⟩) 1700000000000).map (·.id) =
      [1700000000000, 1700000000000]) ∧
    ¬ ((handleAddRecord
        (handleAddRecord [] (plainData ⟨2026, 1, 10⟩) 1700000000000)
        (plainData ⟨2026, 1, 11⟩) 1700000000000).map (·.id)).Nodup := by
  decide

/-! ## Claim C7 — the concrete aggregation test vector -/

/-- Claim C7: on the claimed three-record list the aggregator computes
`totalSteps = 26500`, `totalWorkoutMinutes = 135`,
`averageHeartRate = 72` (rounded mean of 72, 75, 70) and
`dailyAverageSteps = 8833` (26500/3 rounded). -/
theorem c7_test_vector :
    calculateStats [recJan10, recJan11, recJan12] =
      { totalSteps := 26500, totalWorkoutDuration := 135,
        averageHeartRate := 72, dailyAverageSteps := 8833,
        recordCount := 3 } := by
  norm_num [calculateStats, recJan10, recJan11, recJan12, jsRound,
    StatsV1.mk.injEq]

/-! ## Claim C8 — purity of `summarize` with respect to the clock -/

/-- Claim C8, counterexample: with the same single-record list, two runs
of the dashboard statistics under different ambient clock values
(2026-01-12 vs 2020-01-01) produce different weekly series — the output
is not a function of the records alone, because `getWeeklyData` reads the
system clock (`new Date()`) internally. -/
theorem c8_counterexample :
    (summaryStats [recJan12] ⟨2026, 1, 12⟩).weeklyData.map (·.steps) ≠
    (summaryStats [recJan12] ⟨2020, 1, 1⟩).weeklyData.map (·.steps) := by
  decide

/-- Claim C8 (amended): the dashboard statistics are a pure function of
the records and the ambient clock value; all outputs except the weekly
series (totals, averages, the record count) are independent of the clock
reading. -/
theorem c8_totals_clock_independent (records : List HealthRecord)
    (t1 t2 : CalDate) :
    (summaryStats records t1).totalSteps = (summaryStats records t2).totalSteps ∧
    (summaryStats records t1).totalWorkout = (summaryStats records t2).totalWorkout ∧
    (summaryStats records t1).avgHeartRate = (summaryStats records t2).avgHeartRate ∧
    (summaryStats records t1).recordCount = (summaryStats records t2).recordCount ∧
    (summaryStats records t1).avgDailySteps = (summaryStats records t2).avgDailySteps := by
  unfold summaryStats
  split_ifs <;> simp

/-! ## Claim C9 — the two heart-rate classifications -/

/-- Claim C9, counterexample: at heart rate 100 the list-row badge
(`getHeartRateCategory`) classifies "Normal" while the dashboard status
(`getHeartRateStatus`) classifies "Elevated" — the two functions are not
extensionally equal, and the dashboard violates the claimed
`60 ≤ h ≤ 100 → normal` threshold at `h = 100`. -/
theorem c9_counterexample :
    zoneOfCategory (getHeartRateCategory 100) = HRZone.normal ∧
    zoneOfStatus (getHeartRateStatus 100) = HRZone.elevated ∧
    zoneOfCategory (getHeartRateCategory 100) ≠
      zoneOfStatus (getHeartRateStatus 100) := by
  decide

/-- Claim C9 (amended): away from the two divergent points — 0, where the
dashboard uses a no-data sentinel, and 100, which the badge classifies as
normal but the dashboard as elevated — the badge and the dashboard status
agree as zone classifications: `h < 60` is low/resting, `60 ≤ h < 100` is
normal, `h > 100` is elevated. -/
theorem c9_zones_agree_off_boundary (h : ℚ) (h0 : h ≠ 0) (h100 : h ≠ 100) :
    zoneOfCategory (getHeartRateCategory h) =
      zoneOfStatus (getHeartRateStatus h) := by
  by_cases hlt : h < 60
  · simp [getHeartRateCategory, getHeartRateStatus, zoneOfCategory,
      zoneOfStatus, hlt, h0]
  · by_cases hle : h ≤ 100
    · have hlt100 : h < 100 := lt_of_le_of_ne hle h100
      simp [getHeartRateCategory, getHeartRateStatus, zoneOfCategory,
        zoneOfStatus, hlt, hle, hlt100, h0]
    · have hnlt : ¬ h < 100 := fun hc => hle (le_of_lt hc)
      simp [getHeartRateCategory, getHeartRateStatus, zoneOfCategory,
        zoneOfStatus, hlt, hle, hnlt, h0]

/-- Claim C9, witness: at the ordinary heart rate 72 both classifications
give the normal zone. -/
theorem c9_witness :
    zoneOfCategory (getHeartRateCategory 72) =
      zoneOfStatus (getHeartRateStatus 72) :=
  c9_zones_agree_off_boundary 72 (by norm_num) (by norm_num)

/-! ## Claim C10 — delete removes exactly the matching records -/

/-- Claim C10: `handleDeleteRecord` removes exactly the records whose id
equals `x`: no record with id `x` survives, the result is a subsequence of
the original list (every other record is kept unchanged, in order), every
record with a different id is kept, and when no stored record has id `x`
the list is returned exactly unchanged (and no error is signalled — the
function is total). -/
theorem c10_delete_frame (recs : List HealthRecord) (x : Int) :
    (∀ r ∈ handleDeleteRecord recs x, r.id ≠ x) ∧
    List.Sublist (handleDeleteRecord recs x) recs ∧
    (∀ r ∈ recs, r.id ≠ x → r ∈ handleDeleteRecord recs x) ∧
    (getRecord recs x = none → handleDeleteRecord recs x = recs) := by
  refine ⟨?_, List.filter_sublist _, ?_, ?_⟩
  · intro r hr
    have h2 := (List.mem_filter.mp hr).2
    simpa using h2
  · intro r hr hne
    exact List.mem_filter.mpr ⟨hr, by simpa using hne⟩
  · intro hnone
    rw [getRecord, List.find?_eq_none] at hnone
    exact List.filter_eq_self.mpr fun r hr => by simpa using hnone r hr

/-- Claim C10, witness: deleting an id that is not present leaves the
concrete one-record store exactly unchanged. -/
theorem c10_witness :
    handleDeleteRecord [recJan10] 7 = [recJan10] :=
  (c10_delete_frame [recJan10] 7).2.2.2 (by decide)
